import Mathlib

/-!
Shallow embedding of the shape-validation and area-computation module of the
reviewed Tauri backend (src/src-tauri/src/lib.rs).  The `f32` values of the
source are idealised as real numbers; every function below is a direct
translation of the corresponding Rust item.
-/

namespace ShapeArea

/-- A point with two coordinates, translating `struct Point`. -/
@[ext]
structure Point where
  x : ℝ
  y : ℝ

/-- A rectangle given by two corner points, translating `struct Rectangle`. -/
@[ext]
structure Rectangle where
  top_left : Point
  bottom_right : Point

/-- Translation of `Rectangle::normalize`: componentwise min into `top_left`
and componentwise max into `bottom_right`. -/
noncomputable def Rectangle.normalize (r : Rectangle) : Rectangle :=
  Rectangle.mk
    (Point.mk (min r.top_left.x r.bottom_right.x) (min r.top_left.y r.bottom_right.y))
    (Point.mk (max r.top_left.x r.bottom_right.x) (max r.top_left.y r.bottom_right.y))

/-- Translation of `Rectangle::length`: `(x2 - x1).abs()`. -/
noncomputable def Rectangle.length (r : Rectangle) : ℝ :=
  |r.bottom_right.x - r.top_left.x|

/-- Translation of `Rectangle::height`: `(y2 - y1).abs()`. -/
noncomputable def Rectangle.height (r : Rectangle) : ℝ :=
  |r.bottom_right.y - r.top_left.y|

/-- Translation of `<Rectangle as HasArea>::is_valid`: normalize, then accept
when `length > 0 || height > 0`, otherwise return the error string. -/
noncomputable def Rectangle.is_valid (r : Rectangle) : Except String Bool :=
  if 0 < r.normalize.length ∨ 0 < r.normalize.height then
    Except.ok true
  else
    Except.error "Length or hieght of a rectangle cannot be less than zero!"

/-- Translation of `<Rectangle as HasArea>::area`: normalize, then
`length * height`. -/
noncomputable def Rectangle.area (r : Rectangle) : ℝ :=
  r.normalize.length * r.normalize.height

/-- A circle with a center point and a radius, translating `struct Circle`. -/
structure Circle where
  center : Point
  radius : ℝ

/-- Translation of `<Circle as HasArea>::is_valid`: accept when `radius > 0.0`,
otherwise return the error string. -/
noncomputable def Circle.is_valid (c : Circle) : Except String Bool :=
  if 0 < c.radius then
    Except.ok true
  else
    Except.error "Radius of circle should not be zero ro less!"

/-- Translation of `<Circle as HasArea>::area`: `PI * radius.powi(2)`. -/
noncomputable def Circle.area (c : Circle) : ℝ :=
  Real.pi * c.radius ^ 2

/-- A polygon given by its ordered list of points, translating
`struct Polygon`. -/
structure Polygon where
  points : List Point

/-- Translation of `<Polygon as HasArea>::is_valid`: accept when
`points.len() > 3`, otherwise return the error string. -/
def Polygon.is_valid (p : Polygon) : Except String Bool :=
  if 3 < p.points.length then
    Except.ok true
  else
    Except.error "A poligon should have 3 or more sides!"

/-- The accumulation loop of `<Polygon as HasArea>::area`: for each index `i`
with successor `j = (i + 1) % n`, add `points[i].x * points[j].y` and subtract
`points[j].x * points[i].y`. -/
noncomputable def shoelaceSum (points : List Point) : ℝ :=
  ∑ i ∈ Finset.range points.length,
    ((points.getD i ⟨0, 0⟩).x * (points.getD ((i + 1) % points.length) ⟨0, 0⟩).y -
      (points.getD ((i + 1) % points.length) ⟨0, 0⟩).x * (points.getD i ⟨0, 0⟩).y)

/-- Translation of `<Polygon as HasArea>::area`: the loop result, then
`area.abs() / 2f32`. -/
noncomputable def Polygon.area (p : Polygon) : ℝ :=
  |shoelaceSum p.points| / 2

/-- Translation of `trait HasArea`. -/
class HasArea (α : Type) where
  is_valid : α → Except String Bool
  area : α → ℝ

noncomputable instance instHasAreaRectangle : HasArea Rectangle :=
  ⟨Rectangle.is_valid, Rectangle.area⟩

noncomputable instance instHasAreaCircle : HasArea Circle :=
  ⟨Circle.is_valid, Circle.area⟩

noncomputable instance instHasAreaPolygon : HasArea Polygon :=
  ⟨Polygon.is_valid, Polygon.area⟩

/-- Translation of `fn calc_area`: propagate a validity error (`?`), answer
`Ok(area)` on `true`, and fall back to the generic error on `false`. -/
noncomputable def calc_area {α : Type} [HasArea α] (target : α) : Except String ℝ :=
  match HasArea.is_valid target with
  | Except.error e => Except.error e
  | Except.ok true => Except.ok (HasArea.area target)
  | Except.ok false => Except.error "The shape object is invalid!"

/-- Translation of the command `calc_rectangle_area`. -/
noncomputable def calc_rectangle_area (shape : Rectangle) : Except String ℝ :=
  calc_area shape

/-- Translation of the command `calc_circle_area`. -/
noncomputable def calc_circle_area (shape : Circle) : Except String ℝ :=
  calc_area shape

/-- Translation of the command `calc_polygon_area`. -/
noncomputable def calc_polygon_area (shape : Polygon) : Except String ℝ :=
  calc_area shape

/-- The commands registered in `run` via `generate_handler![...]`. -/
def exposed_commands : List String :=
  ["calc_rectangle_area", "calc_circle_area", "calc_polygon_area"]

/-- The cross term of one polygon edge, from the specification text:
`x_i * y_next - x_next * y_i`. -/
noncomputable def cross (a b : Point) : ℝ :=
  a.x * b.y - b.x * a.y

/-- The cyclic Shoelace sum as worded in the specification: every point is
paired with its cyclic successor (wraparound), and the cross terms are
summed. -/
noncomputable def spec_cyclic_sum (pts : List Point) : ℝ :=
  (List.zipWith cross pts (pts.rotate 1)).sum

/-- Concrete rectangle from the specification test cases. -/
def sampleRect : Rectangle := ⟨⟨0, 0⟩, ⟨4, 3⟩⟩

/-- Concrete degenerate rectangle: zero length, positive height. -/
def degenerateRect : Rectangle := ⟨⟨0, 0⟩, ⟨0, 5⟩⟩

/-- Concrete rectangle whose two corners coincide. -/
def pointRect : Rectangle := ⟨⟨1, 2⟩, ⟨1, 2⟩⟩

/-- Concrete circle of radius 2 from the specification test cases. -/
def sampleCircle : Circle := ⟨⟨0, 0⟩, 2⟩

/-- Concrete circle of radius 0 from the specification test cases. -/
def zeroCircle : Circle := ⟨⟨0, 0⟩, 0⟩

/-- Concrete square polygon from the specification test cases. -/
def sampleSquare : Polygon := ⟨[⟨0, 0⟩, ⟨4, 0⟩, ⟨4, 4⟩, ⟨0, 4⟩]⟩

/-- Concrete three-point polygon from the specification test cases. -/
def sampleTriangle : Polygon := ⟨[⟨0, 0⟩, ⟨1, 0⟩, ⟨0, 1⟩]⟩

theorem calc_area_of_ok {α : Type} [HasArea α] (s : α)
    (h : HasArea.is_valid s = Except.ok true) :
    calc_area s = Except.ok (HasArea.area s) := by
  rw [calc_area, h]

theorem calc_area_of_error {α : Type} [HasArea α] (s : α) (e : String)
    (h : HasArea.is_valid s = Except.error e) :
    calc_area s = Except.error e := by
  rw [calc_area, h]

theorem rectangle_is_valid_cases (r : Rectangle) :
    r.is_valid = Except.ok true ∨
      r.is_valid = Except.error "Length or hieght of a rectangle cannot be less than zero!" := by
  rw [Rectangle.is_valid]
  split_ifs <;> simp

theorem circle_is_valid_cases (c : Circle) :
    c.is_valid = Except.ok true ∨
      c.is_valid = Except.error "Radius of circle should not be zero ro less!" := by
  rw [Circle.is_valid]
  split_ifs <;> simp

theorem polygon_is_valid_cases (p : Polygon) :
    p.is_valid = Except.ok true ∨
      p.is_valid = Except.error "A poligon should have 3 or more sides!" := by
  rw [Polygon.is_valid]
  split_ifs <;> simp

theorem calc_rectangle_area_cases (r : Rectangle) :
    calc_rectangle_area r = Except.ok (Rectangle.area r) ∨
      calc_rectangle_area r =
        Except.error "Length or hieght of a rectangle cannot be less than zero!" := by
  rcases rectangle_is_valid_cases r with h | h
  · exact Or.inl (calc_area_of_ok r h)
  · exact Or.inr (calc_area_of_error r _ h)

theorem calc_circle_area_cases (c : Circle) :
    calc_circle_area c = Except.ok (Circle.area c) ∨
      calc_circle_area c = Except.error "Radius of circle should not be zero ro less!" := by
  rcases circle_is_valid_cases c with h | h
  · exact Or.inl (calc_area_of_ok c h)
  · exact Or.inr (calc_area_of_error c _ h)

theorem calc_polygon_area_cases (p : Polygon) :
    calc_polygon_area p = Except.ok (Polygon.area p) ∨
      calc_polygon_area p = Except.error "A poligon should have 3 or more sides!" := by
  rcases polygon_is_valid_cases p with h | h
  · exact Or.inl (calc_area_of_ok p h)
  · exact Or.inr (calc_area_of_error p _ h)

theorem zipWith_rotate_distrib {α β γ : Type} (f : α → β → γ) (a : List α) (b : List β)
    (h : a.length = b.length) (k : ℕ) :
    List.zipWith f (a.rotate k) (b.rotate k) = (List.zipWith f a b).rotate k := by
  apply List.ext_getElem
  · simp [List.length_zipWith, h]
  · intro i h1 h2
    simp only [List.getElem_zipWith, List.getElem_rotate, List.length_zipWith, h, Nat.min_self]

theorem zipWith_reverse_distrib {α β γ : Type} (f : α → β → γ) (a : List α) (b : List β)
    (h : a.length = b.length) :
    List.zipWith f a.reverse b.reverse = (List.zipWith f a b).reverse := by
  apply List.ext_getElem
  · simp [List.length_zipWith, h]
  · intro i h1 h2
    simp only [List.getElem_zipWith, List.getElem_reverse, List.length_zipWith,
      List.length_reverse, h, Nat.min_self]

theorem cross_skew (a b : Point) : cross a b = -cross b a := by
  rw [cross, cross]
  ring

theorem zipWith_cross_swap (a b : List Point) :
    (List.zipWith cross a b).sum = -(List.zipWith cross b a).sum := by
  have h1 : List.zipWith cross a b = List.map (fun z => -z) (List.zipWith cross b a) := by
    rw [List.zipWith_comm cross a b, List.map_zipWith]
    congr 1
    funext x y
    exact cross_skew y x
  rw [h1]
  exact (List.sum_neg _).symm

theorem shoelaceSum_eq_spec (pts : List Point) : shoelaceSum pts = spec_cyclic_sum pts := by
  rcases Nat.eq_zero_or_pos pts.length with h0 | hpos
  · rw [List.length_eq_zero.mp h0]
    simp [shoelaceSum, spec_cyclic_sum]
  · have hzip : List.zipWith cross pts (pts.rotate 1) =
        List.ofFn (fun i : Fin pts.length =>
          cross (pts.getD (i : ℕ) ⟨0, 0⟩) (pts.getD (((i : ℕ) + 1) % pts.length) ⟨0, 0⟩)) := by
      apply List.ext_getElem
      · simp [List.length_zipWith]
      · intro i h1 h2
        have hi : i < pts.length := by
          simpa [List.length_zipWith] using h1
        have hj : (i + 1) % pts.length < pts.length := Nat.mod_lt _ hpos
        simp only [List.getElem_zipWith, List.getElem_rotate, List.getElem_ofFn]
        rw [List.getD_eq_getElem pts _ hi, List.getD_eq_getElem pts _ hj]
    rw [spec_cyclic_sum, hzip, List.sum_ofFn, shoelaceSum]
    rw [← Fin.sum_univ_eq_sum_range (fun i =>
      ((pts.getD i ⟨0, 0⟩).x * (pts.getD ((i + 1) % pts.length) ⟨0, 0⟩).y -
        (pts.getD ((i + 1) % pts.length) ⟨0, 0⟩).x * (pts.getD i ⟨0, 0⟩).y)) pts.length]
    exact Finset.sum_congr rfl (fun i _ => by rw [cross])

theorem spec_cyclic_sum_rotate (l : List Point) (k : ℕ) :
    spec_cyclic_sum (l.rotate k) = spec_cyclic_sum l := by
  rw [spec_cyclic_sum, spec_cyclic_sum]
  have h1 : (l.rotate k).rotate 1 = (l.rotate 1).rotate k := by
    rw [List.rotate_rotate, List.rotate_rotate, Nat.add_comm]
  rw [h1, zipWith_rotate_distrib cross l (l.rotate 1) (List.length_rotate l 1).symm k]
  exact (List.rotate_perm _ k).sum_eq

theorem spec_cyclic_sum_reverse (l : List Point) :
    spec_cyclic_sum l.reverse = -spec_cyclic_sum l := by
  rcases eq_or_ne l [] with rfl | hne
  · simp [spec_cyclic_sum]
  · have hpos : 0 < l.length := List.length_pos.mpr hne
    rw [spec_cyclic_sum, List.rotate_reverse l 1]
    rw [zipWith_reverse_distrib cross l (l.rotate (l.length - 1 % l.length))
      (List.length_rotate _ _).symm]
    rw [List.sum_reverse, zipWith_cross_swap, neg_inj]
    have hcomp : (l.rotate (l.length - 1 % l.length)).rotate (1 % l.length) = l := by
      rw [List.rotate_rotate, Nat.sub_add_cancel (Nat.le_of_lt (Nat.mod_lt 1 hpos))]
      exact List.rotate_length l
    calc (List.zipWith cross (l.rotate (l.length - 1 % l.length)) l).sum
        = ((List.zipWith cross (l.rotate (l.length - 1 % l.length)) l).rotate
            (1 % l.length)).sum := ((List.rotate_perm _ _).sum_eq).symm
      _ = (List.zipWith cross ((l.rotate (l.length - 1 % l.length)).rotate (1 % l.length))
            (l.rotate (1 % l.length))).sum := by
          rw [zipWith_rotate_distrib cross (l.rotate (l.length - 1 % l.length)) l
            (List.length_rotate _ _) (1 % l.length)]
      _ = (List.zipWith cross l (l.rotate (1 % l.length))).sum := by rw [hcomp]
      _ = (List.zipWith cross l (l.rotate 1)).sum := by rw [List.rotate_mod]
      _ = spec_cyclic_sum l := rfl

theorem shoelaceSum_rotate (l : List Point) (k : ℕ) :
    shoelaceSum (l.rotate k) = shoelaceSum l := by
  rw [shoelaceSum_eq_spec, shoelaceSum_eq_spec, spec_cyclic_sum_rotate]

theorem shoelaceSum_reverse (l : List Point) :
    shoelaceSum l.reverse = -shoelaceSum l := by
  rw [shoelaceSum_eq_spec, shoelaceSum_eq_spec, spec_cyclic_sum_reverse]

theorem rectangle_normalize_idem (r : Rectangle) : r.normalize.normalize = r.normalize := by
  ext <;>
    simp [Rectangle.normalize, min_le_max, inf_eq_left.mpr, sup_eq_right.mpr,
      min_eq_left, max_eq_right]

theorem rectangle_area_nonneg (r : Rectangle) : 0 ≤ Rectangle.area r := by
  rw [Rectangle.area, Rectangle.length, Rectangle.height]
  exact mul_nonneg (abs_nonneg _) (abs_nonneg _)

theorem circle_area_nonneg (c : Circle) : 0 ≤ Circle.area c := by
  rw [Circle.area]
  positivity

theorem polygon_area_nonneg (p : Polygon) : 0 ≤ Polygon.area p := by
  rw [Polygon.area]
  positivity

theorem sampleRect_calc : calc_rectangle_area sampleRect = Except.ok 12 := by
  have hv : HasArea.is_valid sampleRect = Except.ok true := by
    show sampleRect.is_valid = Except.ok true
    rw [Rectangle.is_valid, if_pos (Or.inl (show (0 : ℝ) < sampleRect.normalize.length by
      norm_num [sampleRect, Rectangle.normalize, Rectangle.length]))]
  rw [calc_rectangle_area, calc_area_of_ok sampleRect hv]
  have ha : HasArea.area sampleRect = 12 := by
    show Rectangle.area sampleRect = 12
    rw [Rectangle.area]
    norm_num [sampleRect, Rectangle.normalize, Rectangle.length, Rectangle.height]
  rw [ha]

theorem sampleCircle_calc : calc_circle_area sampleCircle = Except.ok (Real.pi * 4) := by
  have hv : HasArea.is_valid sampleCircle = Except.ok true := by
    show sampleCircle.is_valid = Except.ok true
    rw [Circle.is_valid, if_pos (show (0 : ℝ) < sampleCircle.radius by norm_num [sampleCircle])]
  rw [calc_circle_area, calc_area_of_ok sampleCircle hv]
  have ha : HasArea.area sampleCircle = Real.pi * 4 := by
    show Circle.area sampleCircle = Real.pi * 4
    rw [Circle.area]
    norm_num [sampleCircle]
  rw [ha]

theorem sampleSquare_spec_value : spec_cyclic_sum sampleSquare.points = 32 := by
  have hrot : sampleSquare.points.rotate 1 = [⟨4, 0⟩, ⟨4, 4⟩, ⟨0, 4⟩, ⟨0, 0⟩] := rfl
  rw [spec_cyclic_sum, hrot]
  norm_num [sampleSquare, cross]

theorem sampleSquare_calc : calc_polygon_area sampleSquare = Except.ok 16 := by
  have hv : HasArea.is_valid sampleSquare = Except.ok true := rfl
  rw [calc_polygon_area, calc_area_of_ok sampleSquare hv]
  have ha : HasArea.area sampleSquare = 16 := by
    show Polygon.area sampleSquare = 16
    rw [Polygon.area, shoelaceSum_eq_spec, sampleSquare_spec_value]
    norm_num
  rw [ha]

/-- Claim C1: for every polygon accepted by the validity check, the area
operation returns the Shoelace formula over the closed point loop — the
absolute value of the cyclic sum, over all n points with wraparound, of
`x_i * y_next - x_next * y_i`, divided by 2. -/
theorem polygon_area_is_spec_shoelace (p : Polygon) (h : p.is_valid = Except.ok true) :
    p.area = |spec_cyclic_sum p.points| / 2 := by
  rw [Polygon.area, shoelaceSum_eq_spec]

theorem polygon_area_is_spec_shoelace_witness :
    sampleSquare.is_valid = Except.ok true ∧
      sampleSquare.area = |spec_cyclic_sum sampleSquare.points| / 2 :=
  ⟨rfl, polygon_area_is_spec_shoelace sampleSquare rfl⟩

/-- Claim C2: for every circle with radius r > 0, `calc_circle_area` succeeds
and returns `π * r ^ 2`; for radius r ≤ 0 it returns the invalid-circle
error. -/
theorem circle_area_pi_r_squared (c : Circle) :
    (0 < c.radius → calc_circle_area c = Except.ok (Real.pi * c.radius ^ 2)) ∧
    (c.radius ≤ 0 →
      calc_circle_area c = Except.error "Radius of circle should not be zero ro less!") := by
  constructor
  · intro h
    have hv : HasArea.is_valid c = Except.ok true := by
      show c.is_valid = Except.ok true
      rw [Circle.is_valid, if_pos h]
    rw [calc_circle_area, calc_area_of_ok c hv]
    rfl
  · intro h
    have hv : HasArea.is_valid c =
        Except.error "Radius of circle should not be zero ro less!" := by
      show c.is_valid = _
      rw [Circle.is_valid, if_neg (not_lt.mpr h)]
    rw [calc_circle_area]
    exact calc_area_of_error c _ hv

theorem circle_area_pi_r_squared_witness :
    calc_circle_area sampleCircle = Except.ok (Real.pi * sampleCircle.radius ^ 2) ∧
      calc_circle_area zeroCircle =
        Except.error "Radius of circle should not be zero ro less!" :=
  ⟨(circle_area_pi_r_squared sampleCircle).1 (by norm_num [sampleCircle]),
   (circle_area_pi_r_squared zeroCircle).2 (by norm_num [zeroCircle])⟩

/-- Claim C3: a rectangle is accepted iff, after normalization, its length > 0
OR its height > 0, and the invalid-rectangle error is returned exactly when
both length and height are ≤ 0. -/
theorem rectangle_validity_or_rule (r : Rectangle) :
    (r.is_valid = Except.ok true ↔
      0 < r.normalize.length ∨ 0 < r.normalize.height) ∧
    (r.is_valid = Except.error "Length or hieght of a rectangle cannot be less than zero!" ↔
      r.normalize.length ≤ 0 ∧ r.normalize.height ≤ 0) := by
  by_cases h : 0 < r.normalize.length ∨ 0 < r.normalize.height
  · rw [Rectangle.is_valid, if_pos h]
    constructor
    · simp [h]
    · simp only [reduceCtorEq, false_iff]
      rcases h with h | h
      · exact fun hc => absurd hc.1 (not_le.mpr h)
      · exact fun hc => absurd hc.2 (not_le.mpr h)
  · rw [Rectangle.is_valid, if_neg h]
    push_neg at h
    constructor
    · simp only [reduceCtorEq, false_iff, not_or, not_lt]
      exact h
    · simp [h]

theorem rectangle_validity_or_rule_witness :
    degenerateRect.is_valid = Except.ok true ∧
      pointRect.is_valid =
        Except.error "Length or hieght of a rectangle cannot be less than zero!" :=
  ⟨(rectangle_validity_or_rule degenerateRect).1.mpr
      (Or.inr (by norm_num [degenerateRect, Rectangle.normalize, Rectangle.height])),
   (rectangle_validity_or_rule pointRect).2.mpr
      (by norm_num [pointRect, Rectangle.normalize, Rectangle.length, Rectangle.height])⟩

/-- Claim C4: a polygon is accepted iff its point count is strictly greater
than 3, and the invalid-polygon error is returned exactly when the point
count is ≤ 3 (so a 3-point polygon is rejected). -/
theorem polygon_validity_threshold (p : Polygon) :
    (p.is_valid = Except.ok true ↔ 3 < p.points.length) ∧
    (p.is_valid = Except.error "A poligon should have 3 or more sides!" ↔
      p.points.length ≤ 3) := by
  by_cases h : 3 < p.points.length
  · rw [Polygon.is_valid, if_pos h]
    constructor
    · simp [h]
    · simp only [reduceCtorEq, false_iff, not_le]
      exact h
  · rw [Polygon.is_valid, if_neg h]
    constructor
    · simp [h]
    · simp [Nat.not_lt.mp h]

theorem polygon_validity_threshold_witness :
    sampleSquare.is_valid = Except.ok true ∧
      sampleTriangle.is_valid = Except.error "A poligon should have 3 or more sides!" :=
  ⟨(polygon_validity_threshold sampleSquare).1.mpr (by norm_num [sampleSquare]),
   (polygon_validity_threshold sampleTriangle).2.mpr (by norm_num [sampleTriangle])⟩

/-- Claim C5: `normalize` takes the componentwise min/max of the two corners,
its result satisfies `top_left.x ≤ bottom_right.x` and
`top_left.y ≤ bottom_right.y`, and the computed area is invariant both under
normalization and under swapping the two supplied corners. -/
theorem rectangle_normalize_canonical_and_area (r : Rectangle) :
    (r.normalize.top_left.x = min r.top_left.x r.bottom_right.x ∧
      r.normalize.top_left.y = min r.top_left.y r.bottom_right.y ∧
      r.normalize.bottom_right.x = max r.top_left.x r.bottom_right.x ∧
      r.normalize.bottom_right.y = max r.top_left.y r.bottom_right.y) ∧
    (r.normalize.top_left.x ≤ r.normalize.bottom_right.x ∧
      r.normalize.top_left.y ≤ r.normalize.bottom_right.y) ∧
    r.normalize.area = r.area ∧
    (Rectangle.mk r.bottom_right r.top_left).area = r.area := by
  refine ⟨⟨rfl, rfl, rfl, rfl⟩, ⟨min_le_max, min_le_max⟩, ?_, ?_⟩
  · rw [Rectangle.area, Rectangle.area, rectangle_normalize_idem]
  · rw [Rectangle.area, Rectangle.area]
    simp [Rectangle.normalize, Rectangle.length, Rectangle.height, min_comm, max_comm]

/-- Claim C6: each validity check returns either `ok true` or its own explicit
error message, and each of the three commands consequently returns either the
computed area or that shape's validity error verbatim — never the generic
second-layer error string. -/
theorem calc_area_generic_error_unreachable :
    (∀ r : Rectangle, r.is_valid = Except.ok true ∨
      r.is_valid = Except.error "Length or hieght of a rectangle cannot be less than zero!") ∧
    (∀ c : Circle, c.is_valid = Except.ok true ∨
      c.is_valid = Except.error "Radius of circle should not be zero ro less!") ∧
    (∀ p : Polygon, p.is_valid = Except.ok true ∨
      p.is_valid = Except.error "A poligon should have 3 or more sides!") ∧
    (∀ r : Rectangle, calc_rectangle_area r = Except.ok (Rectangle.area r) ∨
      calc_rectangle_area r =
        Except.error "Length or hieght of a rectangle cannot be less than zero!") ∧
    (∀ c : Circle, calc_circle_area c = Except.ok (Circle.area c) ∨
      calc_circle_area c = Except.error "Radius of circle should not be zero ro less!") ∧
    (∀ p : Polygon, calc_polygon_area p = Except.ok (Polygon.area p) ∨
      calc_polygon_area p = Except.error "A poligon should have 3 or more sides!") :=
  ⟨rectangle_is_valid_cases, circle_is_valid_cases, polygon_is_valid_cases,
   calc_rectangle_area_cases, calc_circle_area_cases, calc_polygon_area_cases⟩

/-- Claim C7: the Shoelace area is invariant under cyclic rotation of the
point sequence; reversing the point order flips the sign of the signed sum,
so after the absolute value both orders give an identical area. -/
theorem shoelace_rotation_reversal_invariance (p : Polygon) (k : ℕ) :
    (Polygon.mk (p.points.rotate k)).area = p.area ∧
    shoelaceSum p.points.reverse = -shoelaceSum p.points ∧
    (Polygon.mk p.points.reverse).area = p.area := by
  refine ⟨?_, shoelaceSum_reverse p.points, ?_⟩
  · show |shoelaceSum (p.points.rotate k)| / 2 = |shoelaceSum p.points| / 2
    rw [shoelaceSum_rotate]
  · show |shoelaceSum p.points.reverse| / 2 = |shoelaceSum p.points| / 2
    rw [shoelaceSum_reverse, abs_neg]

/-- Claim C8: whenever one of the three commands succeeds, the returned
numeric result is non-negative. -/
theorem calc_area_results_nonneg (r : Rectangle) (c : Circle) (p : Polygon) (x : ℝ) :
    (calc_rectangle_area r = Except.ok x → 0 ≤ x) ∧
    (calc_circle_area c = Except.ok x → 0 ≤ x) ∧
    (calc_polygon_area p = Except.ok x → 0 ≤ x) := by
  refine ⟨?_, ?_, ?_⟩
  · intro h
    rcases calc_rectangle_area_cases r with he | he
    · rw [Except.ok.inj (h.symm.trans he)]
      exact rectangle_area_nonneg r
    · rw [h] at he
      exact absurd he (by simp)
  · intro h
    rcases calc_circle_area_cases c with he | he
    · rw [Except.ok.inj (h.symm.trans he)]
      exact circle_area_nonneg c
    · rw [h] at he
      exact absurd he (by simp)
  · intro h
    rcases calc_polygon_area_cases p with he | he
    · rw [Except.ok.inj (h.symm.trans he)]
      exact polygon_area_nonneg p
    · rw [h] at he
      exact absurd he (by simp)

theorem calc_area_results_nonneg_witness :
    (0 : ℝ) ≤ 12 ∧ (0 : ℝ) ≤ Real.pi * 4 ∧ (0 : ℝ) ≤ 16 :=
  ⟨(calc_area_results_nonneg sampleRect sampleCircle sampleSquare 12).1 sampleRect_calc,
   (calc_area_results_nonneg sampleRect sampleCircle sampleSquare (Real.pi * 4)).2.1
     sampleCircle_calc,
   (calc_area_results_nonneg sampleRect sampleCircle sampleSquare 16).2.2 sampleSquare_calc⟩

/-- Claim C9 counterexample: the handler list registered in `run` does not
contain a `calc_area` command, so the program does not expose a legacy
integer-coordinate `calc_area` operation. -/
theorem calc_area_not_exposed : exposed_commands.contains "calc_area" = false := rfl

/-- Claim C9 amended: the program exposes exactly `calc_rectangle_area`,
`calc_circle_area` and `calc_polygon_area`; `calc_area` is not an exposed
command but the internal generic helper to which each exposed command
delegates its shape. -/
theorem exposed_commands_and_internal_helper :
    exposed_commands = ["calc_rectangle_area", "calc_circle_area", "calc_polygon_area"] ∧
    exposed_commands.contains "calc_area" = false ∧
    (∀ r : Rectangle, calc_rectangle_area r = calc_area r) ∧
    (∀ c : Circle, calc_circle_area c = calc_area c) ∧
    (∀ p : Polygon, calc_polygon_area p = calc_area p) :=
  ⟨rfl, rfl, fun _ => rfl, fun _ => rfl, fun _ => rfl⟩

/-- Claim C10: the result of `calc_circle_area` depends only on the radius,
not on the center coordinates. -/
theorem circle_area_center_independent (a b : Point) (rad : ℝ) :
    calc_circle_area (Circle.mk a rad) = calc_circle_area (Circle.mk b rad) := rfl

end ShapeArea
